import Mathlib

/-!
Verification of the Soryn single-page chat/debate frontend.

Shallow embedding of the state-bearing handlers of the source tree:
`App.jsx` (model catalog, selection set, optimistic delete with rollback),
`ChatPanel.jsx` (transcript, send, regenerate, session id adoption),
`AddRemoteModelDialog` (form state machine, validation, request body),
`DebatePanel` (submission gating, debate request handling, and the
un-gated model selector), and the sidebar `ModelCard` availability gate.

Network effects are modelled by passing the backend outcome as an explicit
argument to each handler; each handler returns the successor state together
with the list of user-facing notifications it emits (the `toast` calls) and,
where relevant, the list of HTTP request bodies it issues.
-/

namespace Soryn

/-- A model record as consumed by the client (entity `Model` of the data
model): id, display name, provider, api key, api model name, availability. -/
structure Model where
  id : String
  name : String
  provider : String
  api_key : String
  api_model_name : String
  is_available : Bool
deriving DecidableEq

/-- Kind of a user-facing toast produced via `toast.success` / `toast.error`. -/
inductive NotifyKind where
  | success
  | error
deriving DecidableEq

/-- A user-facing transient toast with title and description. -/
structure Notification where
  kind : NotifyKind
  title : String
  description : String
deriving DecidableEq

/-- The slice of root `App` state touched by deletion: the model catalog,
the selection set, the confirmation-modal flag and the stored id of the
model awaiting deletion. -/
structure AppState where
  allModels : List Model
  selectedModels : List Model
  isConfirmModalOpen : Bool
  modelToDelete : Option String
deriving DecidableEq

/-- Embedding of `handleModelToggle` in `App.jsx`: if some element of the
current selection has the toggled model's id, filter that id out; otherwise
append the model. -/
def handleModelToggle (model : Model) (prev : List Model) : List Model :=
  if prev.any (fun m => m.id == model.id) then
    prev.filter (fun m => m.id != model.id)
  else
    prev ++ [model]

/-- Embedding of `handleConfirmDelete` in `App.jsx`. The argument `respOk`
is the `response.ok` of the DELETE call; a rejected fetch takes the same
catch branch as a non-2xx response, so one Boolean covers both. The original
catalog and selection are snapshotted, both are optimistically filtered, and
on failure the snapshots are restored and an error toast is emitted. The
`finally` block closes the modal and clears the stored id in every branch. -/
def handleConfirmDelete (s : AppState) (respOk : Bool) : AppState × List Notification :=
  match s.modelToDelete with
  | none => (s, [])
  | some modelIdToDelete =>
      let originalModels := s.allModels
      let originalSelectedModels := s.selectedModels
      let afterRemoval : AppState :=
        { s with
            allModels := s.allModels.filter (fun m => m.id != modelIdToDelete),
            selectedModels := s.selectedModels.filter (fun m => m.id != modelIdToDelete) }
      if respOk then
        ({ afterRemoval with isConfirmModalOpen := false, modelToDelete := none },
         [⟨NotifyKind.success, "Modelo Removido",
           "O modelo " ++ modelIdToDelete ++ " foi removido com sucesso."⟩])
      else
        ({ afterRemoval with
             allModels := originalModels,
             selectedModels := originalSelectedModels,
             isConfirmModalOpen := false,
             modelToDelete := none },
         [⟨NotifyKind.error, "Falha ao Remover",
           "Não foi possível remover o modelo. Tente novamente."⟩])

/-- C1: on a failed DELETE, `handleConfirmDelete` restores the catalog and the
selection set exactly to their pre-removal snapshots (hence equal as id sets),
and surfaces an error notification. -/
theorem deleteRollbackRestoresSnapshot (s : AppState) (mid : String)
    (h : s.modelToDelete = some mid) :
    (handleConfirmDelete s false).1.allModels = s.allModels
    ∧ (handleConfirmDelete s false).1.selectedModels = s.selectedModels
    ∧ (handleConfirmDelete s false).2
        = [⟨NotifyKind.error, "Falha ao Remover",
            "Não foi possível remover o modelo. Tente novamente."⟩] := by
  simp [handleConfirmDelete, h]

/-- Concrete model used in several witnesses: an available OpenAI model. -/
def modelA : Model := ⟨"a", "Model A", "openai", "sk-a", "gpt-a", true⟩

/-- Concrete model used in several witnesses: an available Gemini model. -/
def modelB : Model := ⟨"b", "Model B", "gemini", "sk-b", "gem-b", true⟩

/-- Witness for C1 at a concrete state with a pending delete of id `a`. -/
theorem deleteRollbackRestoresSnapshot_witness :
    (handleConfirmDelete ⟨[modelA, modelB], [modelA], true, some "a"⟩ false).1.allModels
        = [modelA, modelB]
    ∧ (handleConfirmDelete ⟨[modelA, modelB], [modelA], true, some "a"⟩ false).1.selectedModels
        = [modelA]
    ∧ (handleConfirmDelete ⟨[modelA, modelB], [modelA], true, some "a"⟩ false).2
        = [⟨NotifyKind.error, "Falha ao Remover",
            "Não foi possível remover o modelo. Tente novamente."⟩] :=
  deleteRollbackRestoresSnapshot ⟨[modelA, modelB], [modelA], true, some "a"⟩ "a" rfl

/-- Filtering by a predicate every element already satisfies is the identity;
instance for the id-difference predicate used by `handleModelToggle`. -/
theorem filter_ne_id_of_not_any (l : List Model) (mid : String)
    (h : l.any (fun m => m.id == mid) = false) :
    l.filter (fun m => m.id != mid) = l := by
  induction l with
  | nil => rfl
  | cons x xs ih =>
      simp only [List.any_cons, Bool.or_eq_false_iff] at h
      have hx : (x.id != mid) = true := by rw [bne, h.1]; rfl
      simp [List.filter_cons, hx, ih h.2]

/-- C10: toggling the same model twice leaves the selection unchanged as a set
of ids — an id is in the selection after the double toggle exactly when it was
in it before. -/
theorem toggleTwiceSameIdSet (sel : List Model) (model : Model) (i : String) :
    i ∈ ((handleModelToggle model (handleModelToggle model sel)).map (fun m => m.id))
      ↔ i ∈ (sel.map (fun m => m.id)) := by
  by_cases hp : sel.any (fun m => m.id == model.id) = true
  · -- present: first toggle filters the id out, second appends the model back
    have hfilter :
        (sel.filter (fun m => m.id != model.id)).any (fun m => m.id == model.id) = false := by
      rw [Bool.eq_false_iff]
      intro hc
      rcases List.any_eq_true.mp hc with ⟨x, hx, hxe⟩
      have hkeep := (List.mem_filter.mp hx).2
      rw [bne_iff_ne] at hkeep
      exact hkeep (by simpa using hxe)
    rcases List.any_eq_true.mp hp with ⟨w, hw, hwe⟩
    have hwid : w.id = model.id := by simpa using hwe
    have h1 : handleModelToggle model sel = sel.filter (fun m => m.id != model.id) := by
      rw [handleModelToggle, if_pos hp]
    rw [h1, handleModelToggle, if_neg (by simp [hfilter])]
    simp only [List.map_append, List.mem_append, List.mem_map, List.mem_filter,
      bne_iff_ne, List.map_cons, List.map_nil, List.mem_singleton]
    constructor
    · rintro (⟨x, ⟨hx, _⟩, hxi⟩ | hi)
      · exact ⟨x, hx, hxi⟩
      · exact ⟨w, hw, by rw [hwid, hi]⟩
    · rintro ⟨x, hx, hxi⟩
      by_cases hxm : x.id = model.id
      · exact Or.inr (by rw [← hxi, hxm])
      · exact Or.inl ⟨x, ⟨hx, hxm⟩, hxi⟩
  · -- absent: first toggle appends, second filters back down to the original
    have hp' : sel.any (fun m => m.id == model.id) = false := Bool.eq_false_iff.mpr hp
    have h1 : handleModelToggle model sel = sel ++ [model] := by
      rw [handleModelToggle, if_neg hp]
    rw [h1, handleModelToggle, if_pos (by simp [List.any_append]),
      List.filter_append, filter_ne_id_of_not_any sel model.id hp']
    simp

/-- A transcript entry (entity `ChatMessage`): role is `user` or `assistant`. -/
structure ChatMessage where
  role : String
  content : String
deriving DecidableEq

/-- The JSON body of a POST `/chat` request as built in
`fetchAssistantResponse`: model id, prompt, and the nullable chat id. -/
structure ChatRequest where
  model_id : String
  prompt : String
  chat_id : Option String
deriving DecidableEq

/-- The local state of `ChatPanel`: input prompt, in-flight flag, selected
model id (null before a model is picked), transcript, current session id. -/
structure ChatState where
  prompt : String
  isLoading : Bool
  selectedModelId : Option String
  messages : List ChatMessage
  currentChatId : Option String
deriving DecidableEq

/-- Outcome of a POST `/chat` call: either the parsed success body
(response text and chat id) or the thrown error's message (covering both a
rejected fetch and a non-2xx response). -/
inductive ChatResult where
  | success (response : String) (chat_id : String)
  | failure (errMessage : String)
deriving DecidableEq

/-- The synthetic assistant content appended on a failed send, exactly the
template string of `ChatPanel.jsx`. -/
def errorContent (errMessage : String) : String :=
  "**Erro:** Não foi possível obter uma resposta. Tente novamente. ("
    ++ errMessage ++ ")"

/-- Executable embedding of the JavaScript falsiness test `!s.trim()`:
the trimmed string is empty exactly when every character is whitespace. -/
def isBlank (s : String) : Bool :=
  s.toList.all (fun c => c.isWhitespace)

/-- Embedding of `fetchAssistantResponse` in `ChatPanel.jsx`. Returns the
successor state and the list of issued `/chat` request bodies. Guard: if the
prompt trims to empty or no model is selected, nothing happens and no request
is issued. On success an assistant message with the returned text is appended
and, only when no session id existed, the returned `chat_id` is adopted. On
failure a synthetic assistant message embedding the error text is appended.
The `finally` clears the in-flight flag on both response branches. -/
def fetchAssistantResponse (s : ChatState) (promptToSend : String) (result : ChatResult) :
    ChatState × List ChatRequest :=
  match s.selectedModelId with
  | none => (s, [])
  | some modelId =>
      if isBlank promptToSend then (s, [])
      else
        let apiBody : ChatRequest := ⟨modelId, promptToSend, s.currentChatId⟩
        match result with
        | ChatResult.success response chat_id =>
            let newChatId :=
              if s.currentChatId = none then some chat_id else s.currentChatId
            ({ s with
                 messages := s.messages ++ [⟨"assistant", response⟩],
                 currentChatId := newChatId,
                 isLoading := false }, [apiBody])
        | ChatResult.failure errMessage =>
            ({ s with
                 messages := s.messages ++ [⟨"assistant", errorContent errMessage⟩],
                 isLoading := false }, [apiBody])

/-- Embedding of `handleSendMessage`: append the user message optimistically,
clear the input, then run `fetchAssistantResponse` on the captured prompt. -/
def handleSendMessage (s : ChatState) (result : ChatResult) : ChatState × List ChatRequest :=
  let currentPrompt := s.prompt
  let afterUser : ChatState :=
    { s with messages := s.messages ++ [⟨"user", currentPrompt⟩], prompt := "" }
  fetchAssistantResponse afterUser currentPrompt result

/-- Embedding of `canSendMessage` in `ChatPanel.jsx`: non-whitespace prompt,
a selected model, and no send in flight. -/
def canSendMessage (s : ChatState) : Bool :=
  !(isBlank s.prompt) && s.selectedModelId.isSome && !s.isLoading

/-- C2: a send with a non-whitespace prompt and a selected model grows the
transcript by exactly the optimistic user message plus one assistant message:
on success the assistant message carries the returned text, on failure it is
an assistant-role message whose content contains the error message. -/
theorem chatSendTranscriptGrowsByTwo (s : ChatState) (mid resp cid err : String)
    (h1 : isBlank s.prompt = false) (h2 : s.selectedModelId = some mid) :
    ((handleSendMessage s (ChatResult.success resp cid)).1.messages
        = s.messages ++ [⟨"user", s.prompt⟩, ⟨"assistant", resp⟩]
     ∧ (handleSendMessage s (ChatResult.success resp cid)).1.messages.length
        = s.messages.length + 2)
    ∧ ((handleSendMessage s (ChatResult.failure err)).1.messages
        = s.messages ++ [⟨"user", s.prompt⟩, ⟨"assistant", errorContent err⟩]
     ∧ (handleSendMessage s (ChatResult.failure err)).1.messages.length
        = s.messages.length + 2
     ∧ (∃ pre post, errorContent err = pre ++ err ++ post)) := by
  refine ⟨⟨?_, ?_⟩, ?_, ?_,
    "**Erro:** Não foi possível obter uma resposta. Tente novamente. (", ")", rfl⟩ <;>
    simp [handleSendMessage, fetchAssistantResponse, h2, h1]

/-- Witness for C2 at a concrete state: prompt `ola`, model `a` selected. -/
theorem chatSendTranscriptGrowsByTwo_witness :
    ((handleSendMessage ⟨"ola", false, some "a", [], none⟩
        (ChatResult.success "oi" "c1")).1.messages
        = [] ++ [⟨"user", "ola"⟩, ⟨"assistant", "oi"⟩]
     ∧ (handleSendMessage ⟨"ola", false, some "a", [], none⟩
        (ChatResult.success "oi" "c1")).1.messages.length
        = List.length ([] : List ChatMessage) + 2)
    ∧ ((handleSendMessage ⟨"ola", false, some "a", [], none⟩
        (ChatResult.failure "HTTP 500")).1.messages
        = [] ++ [⟨"user", "ola"⟩, ⟨"assistant", errorContent "HTTP 500"⟩]
     ∧ (handleSendMessage ⟨"ola", false, some "a", [], none⟩
        (ChatResult.failure "HTTP 500")).1.messages.length
        = List.length ([] : List ChatMessage) + 2
     ∧ (∃ pre post, errorContent "HTTP 500" = pre ++ "HTTP 500" ++ post)) :=
  chatSendTranscriptGrowsByTwo ⟨"ola", false, some "a", [], none⟩ "a" "oi" "c1" "HTTP 500"
    (by decide) rfl

/-- C9: on a successful send the `/chat` request body carries the pre-send
session id; a null session id is replaced by the returned `chat_id`, while an
existing session id is left unchanged by the response. -/
theorem sessionIdAdoptedOnlyWhenAbsent (s : ChatState) (p mid resp cid c : String)
    (h1 : isBlank p = false) (h2 : s.selectedModelId = some mid) :
    (s.currentChatId = none →
       (fetchAssistantResponse s p (ChatResult.success resp cid)).1.currentChatId = some cid)
    ∧ (s.currentChatId = some c →
       (fetchAssistantResponse s p (ChatResult.success resp cid)).1.currentChatId = some c)
    ∧ (fetchAssistantResponse s p (ChatResult.success resp cid)).2
        = [⟨mid, p, s.currentChatId⟩] := by
  refine ⟨fun hn => ?_, fun hs => ?_, ?_⟩
  · simp [fetchAssistantResponse, h2, h1, hn]
  · simp [fetchAssistantResponse, h2, h1, hs]
  · simp [fetchAssistantResponse, h2, h1]

/-- Witness for C9 at a concrete state with no session id yet. -/
theorem sessionIdAdoptedOnlyWhenAbsent_witness :
    ((⟨"", false, some "a", [], none⟩ : ChatState).currentChatId = none →
       (fetchAssistantResponse ⟨"", false, some "a", [], none⟩ "ola"
          (ChatResult.success "oi" "c1")).1.currentChatId = some "c1")
    ∧ ((⟨"", false, some "a", [], none⟩ : ChatState).currentChatId = some "c0" →
       (fetchAssistantResponse ⟨"", false, some "a", [], none⟩ "ola"
          (ChatResult.success "oi" "c1")).1.currentChatId = some "c0")
    ∧ (fetchAssistantResponse ⟨"", false, some "a", [], none⟩ "ola"
          (ChatResult.success "oi" "c1")).2
        = [⟨"a", "ola", (⟨"", false, some "a", [], none⟩ : ChatState).currentChatId⟩] :=
  sessionIdAdoptedOnlyWhenAbsent ⟨"", false, some "a", [], none⟩ "ola" "a" "oi" "c1" "c0"
    (by decide) rfl

/-- Embedding of JavaScript `Array.prototype.findLastIndex`: the index of the
last element satisfying the predicate, or none. -/
def findLastIndex (p : ChatMessage → Bool) : List ChatMessage → Option Nat
  | [] => none
  | x :: xs =>
      match findLastIndex p xs with
      | some k => some (k + 1)
      | none => if p x then some 0 else none

/-- The index returned by `findLastIndex` on a list ending in a match is the
index of that final element. -/
theorem findLastIndex_append_singleton (p : ChatMessage → Bool)
    (init : List ChatMessage) (a : ChatMessage) (hpa : p a = true) :
    findLastIndex p (init ++ [a]) = some init.length := by
  induction init with
  | nil => simp [findLastIndex, hpa]
  | cons x xs ih => simp [findLastIndex, ih]

/-- The search of `findLastIndex` fails when no element matches. -/
theorem findLastIndex_eq_none (p : ChatMessage → Bool) (l : List ChatMessage)
    (h : ∀ m ∈ l, p m = false) :
    findLastIndex p l = none := by
  induction l with
  | nil => rfl
  | cons x xs ih =>
      have hx := h x (List.mem_cons_self x xs)
      have ihx := ih (fun m hm => h m (List.mem_cons_of_mem x hm))
      simp [findLastIndex, ihx, hx]

/-- Embedding of `handleRegenerate` in `ChatPanel.jsx`: find the most recent
user message (`findLast`) and the index of the most recent assistant message
(`findLastIndex`); bail out if either is missing; otherwise truncate the
transcript with `slice(0, idx)` and resubmit the user content through
`fetchAssistantResponse`. -/
def handleRegenerate (s : ChatState) (result : ChatResult) : ChatState × List ChatRequest :=
  match s.messages.reverse.find? (fun m => m.role == "user") with
  | none => (s, [])
  | some lastUserMessage =>
      match findLastIndex (fun m => m.role == "assistant") s.messages with
      | none => (s, [])
      | some idx =>
          let truncated : ChatState := { s with messages := s.messages.take idx }
          fetchAssistantResponse truncated lastUserMessage.content result

/-- C3: regenerate is a no-op (state unchanged, no request) when the
transcript has no assistant message; when the transcript ends in an assistant
message, it drops that latest assistant turn, resubmits the most recent user
message's content with the existing session id, and the resulting transcript
has the same length as the transcript the original send produced. -/
theorem regenerateReplacesLastAssistantTurn (s0 s : ChatState) (r0 r : ChatResult)
    (mid : String) (init : List ChatMessage) (a u : ChatMessage)
    (hnoassist : ∀ m ∈ s0.messages, ¬ m.role = "assistant")
    (hmsgs : s.messages = init ++ [a])
    (ha : a.role = "assistant")
    (hu : s.messages.reverse.find? (fun m => m.role == "user") = some u)
    (hc : isBlank u.content = false)
    (hm : s.selectedModelId = some mid) :
    (handleRegenerate s0 r0 = (s0, []))
    ∧ ((handleRegenerate s r).1.messages.length = s.messages.length
       ∧ (handleRegenerate s r).2 = [⟨mid, u.content, s.currentChatId⟩]) := by
  constructor
  · cases hf : s0.messages.reverse.find? (fun m => m.role == "user") with
    | none => simp [handleRegenerate, hf]
    | some v =>
        have hn : findLastIndex (fun m => m.role == "assistant") s0.messages = none :=
          findLastIndex_eq_none _ _ (fun m hm => by
            have hne := hnoassist m hm
            simpa using hne)
        simp [handleRegenerate, hf, hn]
  · have hidx : findLastIndex (fun m => m.role == "assistant") s.messages
        = some init.length := by
      rw [hmsgs]
      exact findLastIndex_append_singleton _ _ _ (by simp [ha])
    have htake : s.messages.take init.length = init := by
      rw [hmsgs]
      exact List.take_left init [a]
    have hlen : s.messages.length = init.length + 1 := by simp [hmsgs]
    cases r with
    | success resp cid =>
        constructor
        · simp [handleRegenerate, hu, hidx, htake, fetchAssistantResponse, hm, hc, hlen]
        · simp [handleRegenerate, hu, hidx, htake, fetchAssistantResponse, hm, hc]
    | failure err =>
        constructor
        · simp [handleRegenerate, hu, hidx, htake, fetchAssistantResponse, hm, hc, hlen]
        · simp [handleRegenerate, hu, hidx, htake, fetchAssistantResponse, hm, hc]

/-- Chat state with no assistant message, used in the C3 witness. -/
def chatNoAssistant : ChatState :=
  ⟨"", false, some "a", [⟨"user", "ola"⟩], none⟩

/-- Chat state ending in an assistant turn, used in the C3 witness. -/
def chatAfterSend : ChatState :=
  ⟨"", false, some "a", [⟨"user", "ola"⟩, ⟨"assistant", "oi"⟩], some "c1"⟩

/-- Witness for C3 at concrete states with and without an assistant turn. -/
theorem regenerateReplacesLastAssistantTurn_witness :
    (handleRegenerate chatNoAssistant (ChatResult.success "x" "c9")
        = (chatNoAssistant, []))
    ∧ ((handleRegenerate chatAfterSend (ChatResult.success "x" "c9")).1.messages.length
          = chatAfterSend.messages.length
       ∧ (handleRegenerate chatAfterSend (ChatResult.success "x" "c9")).2
          = [⟨"a", "ola", chatAfterSend.currentChatId⟩]) :=
  regenerateReplacesLastAssistantTurn chatNoAssistant chatAfterSend
    (ChatResult.success "x" "c9") (ChatResult.success "x" "c9") "a"
    [⟨"user", "ola"⟩] ⟨"assistant", "oi"⟩ ⟨"user", "ola"⟩
    (by decide) (by decide) (by decide) (by decide) (by decide) (by decide)

/-- Embedding of the sidebar `ModelCard` inclusion switch: the `Switch` has
`disabled` set when the model is unavailable, so its toggle callback can only
fire for an available model; a disabled switch leaves the selection as is. -/
def modelCardToggle (model : Model) (prev : List Model) : List Model :=
  if model.is_available then handleModelToggle model prev else prev

/-- Embedding of the `DebatePanel` model selector: every model of the catalog
is rendered as a `CommandItem` whose `onSelect` calls `onModelToggle` with no
availability check. -/
def debateSelectorToggle (model : Model) (prev : List Model) : List Model :=
  handleModelToggle model prev

/-- A sequence of sidebar `ModelCard` toggle events applied to the initially
empty selection set. -/
def modelCardToggleSeq (events : List Model) : List Model :=
  events.foldl (fun sel m => modelCardToggle m sel) []

/-- One sidebar toggle step preserves the all-available invariant of the
selection set. -/
theorem modelCardToggle_preserves_available (sel : List Model) (m : Model)
    (h : ∀ y ∈ sel, y.is_available = true) :
    ∀ y ∈ modelCardToggle m sel, y.is_available = true := by
  intro y hy
  by_cases hav : m.is_available = true
  · rw [modelCardToggle, if_pos hav, handleModelToggle] at hy
    by_cases hp : sel.any (fun x => x.id == m.id) = true
    · rw [if_pos hp] at hy
      exact h y (List.mem_filter.mp hy).1
    · rw [if_neg hp] at hy
      rcases List.mem_append.mp hy with hin | hm
      · exact h y hin
      · rw [List.mem_singleton.mp hm]
        exact hav
  · rw [modelCardToggle, if_neg hav] at hy
    exact h y hy

/-- An unavailable remote OpenAI model, used to refute the original C4. -/
def modelUnavailable : Model := ⟨"u", "Model U", "openai", "sk-u", "gpt-u", false⟩

/-- Counterexample to C4 as stated: a single debate-panel selector toggle on
an unavailable model puts its id into the selection set, because that toggle
path performs no availability check. -/
theorem unavailableToggledViaDebateSelector :
    modelUnavailable.is_available = false
    ∧ "u" ∈ ((debateSelectorToggle modelUnavailable []).map (fun m => m.id)) := by
  constructor
  · rfl
  · simp [debateSelectorToggle, handleModelToggle, modelUnavailable]

/-- C4 amended: the models-panel card cannot toggle an unavailable model into
the selection set — any sequence of sidebar card toggles from the empty
selection yields only available models — while the debate panel's selector
toggle is not availability-gated (see the counterexample). -/
theorem sidebarNeverSelectsUnavailable (events : List Model) (x : Model)
    (hx : x ∈ modelCardToggleSeq events) : x.is_available = true := by
  suffices h : ∀ (evs : List Model) (sel : List Model),
      (∀ y ∈ sel, y.is_available = true) →
      ∀ y ∈ evs.foldl (fun acc m => modelCardToggle m acc) sel, y.is_available = true by
    exact h events [] (by intro y hy; cases hy) x hx
  intro evs
  induction evs with
  | nil => intro sel hsel y hy; exact hsel y hy
  | cons e es ih =>
      intro sel hsel y hy
      exact ih (modelCardToggle e sel)
        (modelCardToggle_preserves_available sel e hsel) y hy

/-- Witness for the amended C4: after sidebar toggles of an available and an
unavailable model, the available one is in the selection and is available. -/
theorem sidebarNeverSelectsUnavailable_witness : modelA.is_available = true :=
  sidebarNeverSelectsUnavailable [modelA, modelUnavailable] modelA (by decide)

/-- The provider options offered by the dialog's `Select`: exactly `openai`
and `gemini`; the control exposes no other value. -/
inductive ProviderChoice where
  | openai
  | gemini
deriving DecidableEq

/-- The string value a provider choice submits. -/
def ProviderChoice.value : ProviderChoice → String
  | ProviderChoice.openai => "openai"
  | ProviderChoice.gemini => "gemini"

/-- The local state of `AddRemoteModelDialog`: provider, display name, model
id and api key fields. -/
structure FormState where
  provider : String
  name : String
  modelId : String
  apiKey : String
deriving DecidableEq

/-- The state the dialog's open-effect installs in create mode: provider
`openai`, every text field empty. -/
def initialCreateForm : FormState := ⟨"openai", "", "", ""⟩

/-- The user interactions the create dialog offers: picking a provider from
the fixed select, and typing into the three text inputs. -/
inductive FormEvent where
  | chooseProvider (c : ProviderChoice)
  | typeName (s : String)
  | typeModelId (s : String)
  | typeApiKey (s : String)
deriving DecidableEq

/-- Apply one form interaction to the dialog state. -/
def applyFormEvent (f : FormState) : FormEvent → FormState
  | FormEvent.chooseProvider c => { f with provider := c.value }
  | FormEvent.typeName s => { f with name := s }
  | FormEvent.typeModelId s => { f with modelId := s }
  | FormEvent.typeApiKey s => { f with apiKey := s }

/-- The create-form state reached after a sequence of user interactions. -/
def createFormAfter (events : List FormEvent) : FormState :=
  events.foldl applyFormEvent initialCreateForm

/-- The JSON body sent by the dialog's submit: provider, api key, model id,
display name and api model name. -/
structure ModelRequestBody where
  provider : String
  api_key : String
  model_id : String
  name : String
  api_model_name : String
deriving DecidableEq

/-- A submitted request: `put_id` is the id in the PUT URL when editing,
none for the create POST; `body` is the JSON payload. -/
structure SubmitRequest where
  put_id : Option String
  body : ModelRequestBody
deriving DecidableEq

/-- The validation toast emitted by `handleSubmit` when a required field is
missing. -/
def validationToast : Notification :=
  ⟨NotifyKind.error, "Erro de Validação",
   "Todos os campos do formulário são obrigatórios."⟩

/-- Embedding of `handleSubmit` in `AddRemoteModelDialog` up to the point the
request is issued: the guard `!name || !modelId || !apiKey` aborts with a
validation toast and no request; otherwise one request is issued whose body
takes `model_id` and `api_model_name` from the original record when editing
and from the typed model id when creating. The handling of the response
(success or error toast, reload, close) does not alter the issued body and is
outside the claims under verification. -/
def handleSubmit (editingModel : Option Model) (f : FormState) :
    Option Notification × List SubmitRequest :=
  if f.name = "" ∨ f.modelId = "" ∨ f.apiKey = "" then
    (some validationToast, [])
  else
    match editingModel with
    | some em =>
        (none, [⟨some em.id, ⟨f.provider, f.apiKey, em.id, f.name, em.api_model_name⟩⟩])
    | none =>
        (none, [⟨none, ⟨f.provider, f.apiKey, f.modelId, f.name, f.modelId⟩⟩])

/-- The provider field of any reachable create-form state is one of the two
select options, hence never empty. -/
theorem createForm_provider_mem (events : List FormEvent) :
    (createFormAfter events).provider = "openai"
    ∨ (createFormAfter events).provider = "gemini" := by
  suffices h : ∀ (evs : List FormEvent) (f : FormState),
      (f.provider = "openai" ∨ f.provider = "gemini") →
      ((evs.foldl applyFormEvent f).provider = "openai"
        ∨ (evs.foldl applyFormEvent f).provider = "gemini") by
    exact h events initialCreateForm (Or.inl rfl)
  intro evs
  induction evs with
  | nil => intro f hf; exact hf
  | cons e es ih =>
      intro f hf
      refine ih (applyFormEvent f e) ?_
      cases e with
      | chooseProvider c => cases c <;> simp [applyFormEvent, ProviderChoice.value]
      | typeName s => simpa [applyFormEvent] using hf
      | typeModelId s => simpa [applyFormEvent] using hf
      | typeApiKey s => simpa [applyFormEvent] using hf

/-- C5: submitting the create dialog from any reachable form state in which
one of the four fields (provider, name, model id, api key) is empty produces
the validation toast and issues no request — the provider cannot actually be
empty in a reachable state, and each of the other three empty fields trips
the submit guard. -/
theorem createSubmitValidation (events : List FormEvent)
    (h : (createFormAfter events).provider = ""
       ∨ (createFormAfter events).name = ""
       ∨ (createFormAfter events).modelId = ""
       ∨ (createFormAfter events).apiKey = "") :
    handleSubmit none (createFormAfter events) = (some validationToast, []) := by
  rcases h with hp | hn | hm | hk
  · rcases createForm_provider_mem events with ho | hg
    · rw [hp] at ho; exact absurd ho (by decide)
    · rw [hp] at hg; exact absurd hg (by decide)
  · rw [handleSubmit, if_pos (Or.inl hn)]
  · rw [handleSubmit, if_pos (Or.inr (Or.inl hm))]
  · rw [handleSubmit, if_pos (Or.inr (Or.inr hk))]

/-- Witness for C5: typing only a display name leaves the model id empty, and
the submit then produces the validation toast and no request. -/
theorem createSubmitValidation_witness :
    handleSubmit none (createFormAfter [FormEvent.typeName "Meu GPT"])
      = (some validationToast, []) :=
  createSubmitValidation [FormEvent.typeName "Meu GPT"]
    (Or.inr (Or.inr (Or.inl (by decide))))

/-- C6: every request an edit submission issues has a body whose `model_id`
equals the original record's id and whose `api_model_name` is copied
unchanged from the original record, whatever the form fields hold; the PUT
is keyed by the same original id. -/
theorem editSubmitKeepsOriginalIds (em : Model) (f : FormState) (r : SubmitRequest)
    (hr : r ∈ (handleSubmit (some em) f).2) :
    r.body.model_id = em.id
    ∧ r.body.api_model_name = em.api_model_name
    ∧ r.put_id = some em.id := by
  by_cases hv : f.name = "" ∨ f.modelId = "" ∨ f.apiKey = ""
  · rw [handleSubmit, if_pos hv] at hr
    cases hr
  · rw [handleSubmit, if_neg hv] at hr
    rw [List.mem_singleton.mp hr]
    exact ⟨rfl, rfl, rfl⟩

/-- A stored remote model being edited, used in the C6 witness. -/
def editedModel : Model := ⟨"gpt-4o", "Meu GPT", "openai", "sk-1", "gpt-4o-mini", true⟩

/-- The form state of the C6 witness: the user retyped every field, with a
model id different from the original record's id. -/
def editedForm : FormState := ⟨"gemini", "Novo Nome", "outro-id", "sk-2"⟩

/-- Witness for C6: even with a divergent model id typed into the form, the
submitted body keeps the original id and api model name. -/
theorem editSubmitKeepsOriginalIds_witness :
    (⟨some "gpt-4o", ⟨"gemini", "sk-2", "gpt-4o", "Novo Nome", "gpt-4o-mini"⟩⟩
        : SubmitRequest).body.model_id = editedModel.id
    ∧ (⟨some "gpt-4o", ⟨"gemini", "sk-2", "gpt-4o", "Novo Nome", "gpt-4o-mini"⟩⟩
        : SubmitRequest).body.api_model_name = editedModel.api_model_name
    ∧ (⟨some "gpt-4o", ⟨"gemini", "sk-2", "gpt-4o", "Novo Nome", "gpt-4o-mini"⟩⟩
        : SubmitRequest).put_id = some editedModel.id :=
  editSubmitKeepsOriginalIds editedModel editedForm
    ⟨some "gpt-4o", ⟨"gemini", "sk-2", "gpt-4o", "Novo Nome", "gpt-4o-mini"⟩⟩
    (by decide)

/-- One per-model entry of a debate result (entity `DebateResult.responses`). -/
structure DebateResponse where
  model_id : String
  response_text : String
  success : Bool
  error_message : String
deriving DecidableEq

/-- The single result object a POST `/debate` call returns. -/
structure DebateResult where
  total_time_ms : Nat
  responses : List DebateResponse
  winner_model_id : String
  evaluation_reasoning : String
deriving DecidableEq

/-- The local state of `DebatePanel`: prompt, in-flight flag, last result. -/
structure DebateState where
  prompt : String
  isDebating : Bool
  debateResult : Option DebateResult
deriving DecidableEq

/-- Embedding of `canStartDebate` in `DebatePanel`: the submit control is
enabled (`disabled` is this negated) exactly when the trimmed prompt is
non-empty, at least two models are selected, and no debate is in flight. -/
def canStartDebate (prompt : String) (selectedModels : List Model) (isDebating : Bool) :
    Bool :=
  !(isBlank prompt) && decide (2 ≤ selectedModels.length) && !isDebating

/-- Outcome of a POST `/debate` call: the parsed result object, or the thrown
error's message (rejected fetch or non-2xx with its `erro` field). -/
inductive DebateOutcome where
  | ok (d : DebateResult)
  | fail (err : String)
deriving DecidableEq

/-- Embedding of `handleStartDebate` in `DebatePanel`. It bails out when the
prompt is blank or fewer than two models are selected; otherwise it clears
any previous result, issues the request, stores the result on success, and on
failure only logs to the console — the returned notification list is the
user-facing toasts the handler emits, and the catch branch emits none. The
`finally` clears the in-flight flag in both branches. -/
def handleStartDebate (s : DebateState) (selectedModels : List Model)
    (outcome : DebateOutcome) : DebateState × List Notification :=
  if isBlank s.prompt = true ∨ selectedModels.length < 2 then (s, [])
  else
    match outcome with
    | DebateOutcome.ok d =>
        ({ s with isDebating := false, debateResult := some d }, [])
    | DebateOutcome.fail _ =>
        ({ s with isDebating := false, debateResult := none }, [])

/-- Embedding of `fetchAllModels` in `App.jsx`: on success the catalog is
replaced wholesale; on failure the previous catalog is kept and an error
toast is emitted; the loading flag is cleared in the `finally` either way.
Returns (catalog, loading flag, emitted notifications). -/
def fetchAllModels (allModels : List Model) (outcome : Except String (List Model)) :
    List Model × Bool × List Notification :=
  match outcome with
  | Except.ok data => (data, false, [])
  | Except.error _ =>
      (allModels, false,
       [⟨NotifyKind.error, "Erro de Rede",
         "Não foi possível carregar a lista de modelos."⟩])

/-- C7: with a duplicate-free selection (as the toggle paths maintain), the
debate submit control is disabled exactly when fewer than two distinct model
ids are selected, the prompt is blank, or a debate is in flight; it is
enabled exactly at the complementary boundary. -/
theorem debateGateExactAtBoundary (prompt : String) (sel : List Model) (d : Bool)
    (hnd : (sel.map (fun m => m.id)).Nodup) :
    (canStartDebate prompt sel d = false
       ↔ ((sel.map (fun m => m.id)).toFinset.card < 2
           ∨ isBlank prompt = true ∨ d = true))
    ∧ (canStartDebate prompt sel d = true
       ↔ (2 ≤ (sel.map (fun m => m.id)).toFinset.card
           ∧ isBlank prompt = false ∧ d = false)) := by
  have hcard : ((sel.map (fun m => m.id)).toFinset.card) = sel.length := by
    rw [List.toFinset_card_of_nodup hnd, List.length_map]
  have htrue : canStartDebate prompt sel d = true
      ↔ (2 ≤ (sel.map (fun m => m.id)).toFinset.card
          ∧ isBlank prompt = false ∧ d = false) := by
    rw [hcard]
    simp only [canStartDebate, Bool.and_eq_true, Bool.not_eq_true', decide_eq_true_eq]
    tauto
  refine ⟨?_, htrue⟩
  have hbf : (canStartDebate prompt sel d = false)
      ↔ ¬ (canStartDebate prompt sel d = true) := by
    cases canStartDebate prompt sel d <;> simp
  rw [hbf, htrue, hcard]
  simp only [not_and_or, Nat.not_le, Bool.not_eq_false]

/-- Witness for C7 with two distinct available models and a real prompt. -/
theorem debateGateExactAtBoundary_witness :
    (canStartDebate "Pergunta" [modelA, modelB] false = false
       ↔ ((([modelA, modelB]).map (fun m => m.id)).toFinset.card < 2
           ∨ isBlank "Pergunta" = true ∨ false = true))
    ∧ (canStartDebate "Pergunta" [modelA, modelB] false = true
       ↔ (2 ≤ (([modelA, modelB]).map (fun m => m.id)).toFinset.card
           ∧ isBlank "Pergunta" = false ∧ false = false)) :=
  debateGateExactAtBoundary "Pergunta" [modelA, modelB] false (by decide)

/-- A previously stored debate result, used to show the failure branch of
`handleStartDebate` really ran in the C8 counterexample. -/
def prevDebateResult : DebateResult := ⟨1000, [], "a", "racional"⟩

/-- Counterexample to C8 as stated: a failed debate submission (here from a
state holding a previous result, with two models and a non-blank prompt, so
the request path is taken) emits no user-facing notification — the catch
branch only logs to the console. -/
theorem failedDebateEmitsNoToast :
    handleStartDebate ⟨"Pergunta", false, some prevDebateResult⟩ [modelA, modelB]
        (DebateOutcome.fail "rede fora")
      = (⟨"Pergunta", false, none⟩, []) := by decide

/-- C8 amended: asynchronous failures are caught locally and each handler
returns to a stable state, and the model-catalog fetch failure surfaces a
toast while keeping the previous catalog; but a failed debate submission
surfaces no toast at all — its catch branch only writes to the console. -/
theorem asyncFailuresCaughtLocally (s : DebateState) (sel : List Model)
    (err e2 : String) (ms : List Model)
    (h1 : isBlank s.prompt = false) (h2 : 2 ≤ sel.length) :
    handleStartDebate s sel (DebateOutcome.fail err)
        = ({ s with isDebating := false, debateResult := none }, [])
    ∧ fetchAllModels ms (Except.error e2)
        = (ms, false,
           [⟨NotifyKind.error, "Erro de Rede",
             "Não foi possível carregar a lista de modelos."⟩]) := by
  constructor
  · rw [handleStartDebate, if_neg ?_]
    rintro (hb | hl)
    · rw [h1] at hb
      cases hb
    · omega
  · rfl

/-- Witness for the amended C8 at the concrete failing debate above plus a
failing catalog fetch. -/
theorem asyncFailuresCaughtLocally_witness :
    handleStartDebate ⟨"Pergunta", true, some prevDebateResult⟩ [modelA, modelB]
        (DebateOutcome.fail "rede fora")
        = (⟨"Pergunta", false, none⟩, [])
    ∧ fetchAllModels [modelA] (Except.error "rede fora")
        = ([modelA], false,
           [⟨NotifyKind.error, "Erro de Rede",
             "Não foi possível carregar a lista de modelos."⟩]) :=
  asyncFailuresCaughtLocally ⟨"Pergunta", true, some prevDebateResult⟩ [modelA, modelB]
    "rede fora" "rede fora" [modelA] (by decide) (by decide)

end Soryn
